import Mathlib

/-!
Verification of the appleseed-max glass material translator
(src/appleseed-max-impl/appleseedglassmtl/appleseedglassmtl.cpp).

The file shallowly embeds the material's parameter snapshot, its cached
Update logic, both material compilers (the procedural OSL path and the
fixed-function builtin path), the Save/Load chunk persistence, and the
legacy compatibility queries, then proves the spec's testable properties
about them.

Floating point values (3ds Max `float`) are modelled as rationals ℚ:
every claim under study is about exact arithmetic relations (division by
100, products, component maxima) which the rational model expresses
exactly. Texture references (`Texmap*`) are modelled as `Option Nat`:
`none` is the null pointer, `some t` a bound texture identified by `t`.
-/

/-- RGB color triple (3ds Max `Color`), components modelled as ℚ. -/
structure Color3 where
  r : ℚ
  g : ℚ
  b : ℚ
deriving DecidableEq, Repr

/--
3ds Max animation interval (SDK `Interval`): a closed range of
`TimeValue`s (32-bit ints).  `TIME_NegInfinity`/`TIME_PosInfinity` are
the extreme representable times; an empty interval (`SetEmpty`/NEVER)
is modelled as a reversed range containing no time.
-/
structure MaxInterval where
  start : Int
  stop : Int
deriving DecidableEq, Repr

def TIME_NegInfinity : Int := -(2 ^ 31)

def TIME_PosInfinity : Int := 2 ^ 31 - 1

/-- The infinite interval (SDK FOREVER, `SetInfinite`). -/
def FOREVER : MaxInterval := ⟨TIME_NegInfinity, TIME_PosInfinity⟩

/-- The empty interval (SDK NEVER, `SetEmpty`): contains no time. -/
def NEVER : MaxInterval := ⟨TIME_PosInfinity, TIME_NegInfinity⟩

/-- SDK `Interval::InInterval(t)`: start ≤ t ≤ stop. -/
def MaxInterval.InInterval (i : MaxInterval) (t : Int) : Bool :=
  decide (i.start ≤ t ∧ t ≤ i.stop)

/-- SDK `Interval::operator&=`: intersection of two closed ranges. -/
def MaxInterval.inter (a b : MaxInterval) : MaxInterval :=
  ⟨max a.start b.start, min a.stop b.stop⟩

/--
One parameter-block slot as seen through `IParamBlock2::GetValue(id, t,
dest, validity)`: the value resolved at the queried time together with
the validity interval the call intersects into the accumulator.
-/
structure Slot (α : Type) where
  value : α
  valid : MaxInterval

/--
The material's parameter block (`m_pblock`, block `appleseedGlassMtlParams`):
per parameter id, the time-resolved slot.  Animatable parameters make the
slot a function of the query time.
-/
structure ParamBlock where
  surface_color : Int → Slot Color3
  surface_color_texmap : Int → Slot (Option Nat)
  reflection_tint : Int → Slot Color3
  reflection_tint_texmap : Int → Slot (Option Nat)
  refraction_tint : Int → Slot Color3
  refraction_tint_texmap : Int → Slot (Option Nat)
  ior : Int → Slot ℚ
  roughness : Int → Slot ℚ
  roughness_texmap : Int → Slot (Option Nat)
  anisotropy : Int → Slot ℚ
  anisotropy_texmap : Int → Slot (Option Nat)
  volume_color : Int → Slot Color3
  volume_color_texmap : Int → Slot (Option Nat)
  scale : Int → Slot ℚ
  bump_method : Int → Slot Int
  bump_texmap : Int → Slot (Option Nat)
  bump_amount : Int → Slot ℚ
  bump_up_vector : Int → Slot Int

/--
The observable state of an `AppleseedGlassMtl` object: the parameter
block reference plus the cached snapshot fields (`m_surface_color`, …)
and the cached validity interval (`m_params_validity`).
-/
structure MtlState where
  pblock : ParamBlock
  m_surface_color : Color3
  m_surface_color_texmap : Option Nat
  m_reflection_tint : Color3
  m_reflection_tint_texmap : Option Nat
  m_refraction_tint : Color3
  m_refraction_tint_texmap : Option Nat
  m_ior : ℚ
  m_roughness : ℚ
  m_roughness_texmap : Option Nat
  m_anisotropy : ℚ
  m_anisotropy_texmap : Option Nat
  m_volume_color : Color3
  m_volume_color_texmap : Option Nat
  m_scale : ℚ
  m_bump_method : Int
  m_bump_texmap : Option Nat
  m_bump_amount : ℚ
  m_bump_up_vector : Int
  m_params_validity : MaxInterval

/--
`AppleseedGlassMtl::Update(t, valid)`.  On a cache hit
(`m_params_validity.InInterval(t)`) nothing is recomputed; on a miss the
validity is reset to FOREVER, each of the 18 parameters is re-read
(each `GetValue` storing the value and narrowing the validity by the
slot's own interval), and `NotifyDependents` is invoked.  The returned
Bool records whether `NotifyDependents(FOREVER, PART_ALL, REFMSG_CHANGE)`
was called.  (The `valid &= m_params_validity` out-parameter update is
a pure function of the result state and is not part of the object state.)
-/
def Update (s : MtlState) (t : Int) : MtlState × Bool :=
  if s.m_params_validity.InInterval t then
    (s, false)
  else
    let v := FOREVER
    let v := v.inter (s.pblock.surface_color t).valid
    let v := v.inter (s.pblock.surface_color_texmap t).valid
    let v := v.inter (s.pblock.reflection_tint t).valid
    let v := v.inter (s.pblock.reflection_tint_texmap t).valid
    let v := v.inter (s.pblock.refraction_tint t).valid
    let v := v.inter (s.pblock.refraction_tint_texmap t).valid
    let v := v.inter (s.pblock.ior t).valid
    let v := v.inter (s.pblock.roughness t).valid
    let v := v.inter (s.pblock.roughness_texmap t).valid
    let v := v.inter (s.pblock.anisotropy t).valid
    let v := v.inter (s.pblock.anisotropy_texmap t).valid
    let v := v.inter (s.pblock.volume_color t).valid
    let v := v.inter (s.pblock.volume_color_texmap t).valid
    let v := v.inter (s.pblock.scale t).valid
    let v := v.inter (s.pblock.bump_method t).valid
    let v := v.inter (s.pblock.bump_texmap t).valid
    let v := v.inter (s.pblock.bump_amount t).valid
    let v := v.inter (s.pblock.bump_up_vector t).valid
    ({ s with
        m_surface_color := (s.pblock.surface_color t).value
        m_surface_color_texmap := (s.pblock.surface_color_texmap t).value
        m_reflection_tint := (s.pblock.reflection_tint t).value
        m_reflection_tint_texmap := (s.pblock.reflection_tint_texmap t).value
        m_refraction_tint := (s.pblock.refraction_tint t).value
        m_refraction_tint_texmap := (s.pblock.refraction_tint_texmap t).value
        m_ior := (s.pblock.ior t).value
        m_roughness := (s.pblock.roughness t).value
        m_roughness_texmap := (s.pblock.roughness_texmap t).value
        m_anisotropy := (s.pblock.anisotropy t).value
        m_anisotropy_texmap := (s.pblock.anisotropy_texmap t).value
        m_volume_color := (s.pblock.volume_color t).value
        m_volume_color_texmap := (s.pblock.volume_color_texmap t).value
        m_scale := (s.pblock.scale t).value
        m_bump_method := (s.pblock.bump_method t).value
        m_bump_texmap := (s.pblock.bump_texmap t).value
        m_bump_amount := (s.pblock.bump_amount t).value
        m_bump_up_vector := (s.pblock.bump_up_vector t).value
        m_params_validity := v }, true)

/--
The parameter store's contract at time `t`: `t` is a representable
`TimeValue` and every slot's validity interval, as returned for `t`,
contains `t` (a 3ds Max controller always validates the queried time).
This is exactly the "no intervening external change" environment of the
idempotence property.
-/
def pblockFreshAt (p : ParamBlock) (t : Int) : Prop :=
  FOREVER.InInterval t = true ∧
  (p.surface_color t).valid.InInterval t = true ∧
  (p.surface_color_texmap t).valid.InInterval t = true ∧
  (p.reflection_tint t).valid.InInterval t = true ∧
  (p.reflection_tint_texmap t).valid.InInterval t = true ∧
  (p.refraction_tint t).valid.InInterval t = true ∧
  (p.refraction_tint_texmap t).valid.InInterval t = true ∧
  (p.ior t).valid.InInterval t = true ∧
  (p.roughness t).valid.InInterval t = true ∧
  (p.roughness_texmap t).valid.InInterval t = true ∧
  (p.anisotropy t).valid.InInterval t = true ∧
  (p.anisotropy_texmap t).valid.InInterval t = true ∧
  (p.volume_color t).valid.InInterval t = true ∧
  (p.volume_color_texmap t).valid.InInterval t = true ∧
  (p.scale t).valid.InInterval t = true ∧
  (p.bump_method t).valid.InInterval t = true ∧
  (p.bump_texmap t).valid.InInterval t = true ∧
  (p.bump_amount t).valid.InInterval t = true ∧
  (p.bump_up_vector t).valid.InInterval t = true

/--
The default parameter block, mirroring the `ParamBlockDesc2` defaults
(`p_default` entries): all colors white, ior 1.5, roughness 0,
anisotropy 0, scale 0, bump method 0 (bump mapping), bump amount 1,
bump up vector 1 (Z), no textures; non-animated values are valid forever.
-/
def defaultPBlock : ParamBlock where
  surface_color := fun _ => ⟨⟨1, 1, 1⟩, FOREVER⟩
  surface_color_texmap := fun _ => ⟨none, FOREVER⟩
  reflection_tint := fun _ => ⟨⟨1, 1, 1⟩, FOREVER⟩
  reflection_tint_texmap := fun _ => ⟨none, FOREVER⟩
  refraction_tint := fun _ => ⟨⟨1, 1, 1⟩, FOREVER⟩
  refraction_tint_texmap := fun _ => ⟨none, FOREVER⟩
  ior := fun _ => ⟨3 / 2, FOREVER⟩
  roughness := fun _ => ⟨0, FOREVER⟩
  roughness_texmap := fun _ => ⟨none, FOREVER⟩
  anisotropy := fun _ => ⟨0, FOREVER⟩
  anisotropy_texmap := fun _ => ⟨none, FOREVER⟩
  volume_color := fun _ => ⟨⟨1, 1, 1⟩, FOREVER⟩
  volume_color_texmap := fun _ => ⟨none, FOREVER⟩
  scale := fun _ => ⟨0, FOREVER⟩
  bump_method := fun _ => ⟨0, FOREVER⟩
  bump_texmap := fun _ => ⟨none, FOREVER⟩
  bump_amount := fun _ => ⟨1, FOREVER⟩
  bump_up_vector := fun _ => ⟨1, FOREVER⟩

/--
A freshly constructed `AppleseedGlassMtl` (its constructor's member
initializer list): defaults cached, `m_params_validity` empty.
-/
def defaultState : MtlState where
  pblock := defaultPBlock
  m_surface_color := ⟨1, 1, 1⟩
  m_surface_color_texmap := none
  m_reflection_tint := ⟨1, 1, 1⟩
  m_reflection_tint_texmap := none
  m_refraction_tint := ⟨1, 1, 1⟩
  m_refraction_tint_texmap := none
  m_ior := 3 / 2
  m_roughness := 0
  m_roughness_texmap := none
  m_anisotropy := 0
  m_anisotropy_texmap := none
  m_volume_color := ⟨1, 1, 1⟩
  m_volume_color_texmap := none
  m_scale := 0
  m_bump_method := 0
  m_bump_texmap := none
  m_bump_amount := 1
  m_bump_up_vector := 1
  m_params_validity := NEVER

/-! ## The procedural-graph (OSL) compiler -/

/-- A resolved input wired into an OSL adapter node: either the bound
texture's output or the constant fallback (color or float). -/
inductive OSLInputSource where
  | texture (t : Nat)
  | constColor (c : Color3)
  | constFloat (v : ℚ)
deriving DecidableEq, Repr

/--
Modelled from the spec: `connect_color_texture` lives in oslutils.cpp,
which is outside the sources under study.  Per §4.2 (ProceduralGraph
mode) it creates a per-slot adapter node, connects the texture's output
to it when a texture is bound and the constant otherwise, and connects
the adapter's output to the named input pin of the main shading node.
The model records, per pin, which source ends up wired to it.
-/
def connect_color_texture (pin : String) (texmap : Option Nat)
    (constant : Color3) : String × OSLInputSource :=
  (pin, match texmap with
        | some t => OSLInputSource.texture t
        | none => OSLInputSource.constColor constant)

/--
Modelled from the spec: `connect_float_texture` (oslutils.cpp), the
scalar variant of `connect_color_texture`; see §4.2.
-/
def connect_float_texture (pin : String) (texmap : Option Nat)
    (constant : ℚ) : String × OSLInputSource :=
  (pin, match texmap with
        | some t => OSLInputSource.texture t
        | none => OSLInputSource.constFloat constant)

/-- A bump/normal perturbation node inserted into the shader graph,
wired into the glass node's "Normal" pin (spec §4.3, ProceduralGraph
mode; `connect_bump_map` / `connect_normal_map` of oslutils.cpp). -/
inductive OSLBumpNode where
  | bumpMap (texmap : Nat) (amount : ℚ)
  | normalMap (texmap : Nat) (upVector : Int) (amount : ℚ)
deriving DecidableEq, Repr

/-- A literal parameter baked on the glass shading node via
`fmt_osl_expr` (color, float or string expression). -/
inductive OSLParam where
  | color (c : Color3)
  | flt (v : ℚ)
  | str (v : String)
deriving DecidableEq, Repr

/--
The observable result of `create_osl_material`: the per-pin adapter
wiring produced by the six `connect_*_texture` calls, the bump/normal
nodes, and the literal parameters attached to the `as_max_glass_material`
node.  (The closure-to-surface adapter and its connection are constant
boilerplate, identical for every snapshot, and carry no claim-relevant
data.)
-/
structure OSLMaterialOut where
  adapters : List (String × OSLInputSource)
  bumpNodes : List OSLBumpNode
  glassParams : List (String × OSLParam)
deriving Repr

/-- `AppleseedGlassMtl::create_osl_material`, transcribed line by line. -/
def create_osl_material (s : MtlState) : OSLMaterialOut where
  adapters :=
    [connect_color_texture "SurfaceTransmittance" s.m_surface_color_texmap s.m_surface_color,
     connect_color_texture "ReflectionTint" s.m_reflection_tint_texmap s.m_reflection_tint,
     connect_color_texture "RefractionTint" s.m_refraction_tint_texmap s.m_refraction_tint,
     connect_color_texture "VolumeTransmittance" s.m_volume_color_texmap s.m_volume_color,
     connect_float_texture "Roughness" s.m_roughness_texmap (s.m_roughness / 100),
     connect_float_texture "Anisotropic" s.m_anisotropy_texmap (s.m_anisotropy / 100)]
  bumpNodes :=
    match s.m_bump_texmap with
    | none => []
    | some bt =>
        if s.m_bump_method = 0 then
          [OSLBumpNode.bumpMap bt s.m_bump_amount]
        else
          [OSLBumpNode.normalMap bt s.m_bump_up_vector s.m_bump_amount]
  glassParams :=
    [("SurfaceTransmittance", OSLParam.color s.m_surface_color),
     ("ReflectionTint", OSLParam.color s.m_reflection_tint),
     ("RefractionTint", OSLParam.color s.m_refraction_tint),
     ("VolumeTransmittance", OSLParam.color s.m_volume_color),
     ("Roughness", OSLParam.flt (s.m_roughness / 100)),
     ("Anisotropic", OSLParam.flt (s.m_anisotropy / 100)),
     ("Ior", OSLParam.flt s.m_ior),
     ("VolumeTransmittanceDistance", OSLParam.flt s.m_scale),
     ("Distribution", OSLParam.str "ggx")]

/-! ## The fixed-function (builtin) compiler -/

/-- A value stored in a renderer `ParamArray`: a string (entity
reference or enum keyword) or a float. -/
inductive ParamValue where
  | s (v : String)
  | f (v : ℚ)
deriving DecidableEq, Repr

/-- The deterministic name under which a bound texture is instantiated
in the assembly (part of the `insert_texture_and_instance` model). -/
def texInstanceName (t : Nat) : String :=
  "instance_of_texture_" ++ toString t

/-- A texture instance registered in the assembly, with any extra
texture parameters (such as a forced `color_space`). -/
structure TexInstance where
  texmap : Nat
  params : List (String × String)
deriving DecidableEq, Repr

/--
Modelled from the spec: `insert_texture_and_instance` (utilities.cpp,
outside the sources under study).  Per §4.2 (FixedFunction mode): when a
texture is bound it is instantiated as a standalone scene object and its
instance identifier returned; when the slot's texture is null nothing is
inserted and the empty identifier is returned (`std::string` emptiness
is modelled as `Option`: `none` is the empty string the callers test
with `instance_name.empty()`).
-/
def insert_texture_and_instance (texmap : Option Nat)
    (extra : List (String × String)) : Option String × List TexInstance :=
  match texmap with
  | some t => (some (texInstanceName t), [⟨t, extra⟩])
  | none => (none, [])

/--
The observable result of `create_builtin_material`: the glass BSDF's
parameter set, the material's parameter set, the constant colors
inserted into the assembly, and the texture instances created.
-/
structure BuiltinMaterialOut where
  bsdf_params : List (String × ParamValue)
  material_params : List (String × ParamValue)
  colors : List (String × Color3)
  textures : List TexInstance
deriving Repr

/--
`AppleseedGlassMtl::create_builtin_material`, transcribed in source
order.  Each slot follows the code's
`if (!instance_name.empty()) use texture instance else use constant`
shape; `insert_color(assembly, c, name)` is recorded in `colors`.
-/
def create_builtin_material (s : MtlState) (name : String) : BuiltinMaterialOut :=
  let st := insert_texture_and_instance s.m_surface_color_texmap []
  let rt := insert_texture_and_instance s.m_reflection_tint_texmap []
  let ft := insert_texture_and_instance s.m_refraction_tint_texmap []
  let ro := insert_texture_and_instance s.m_roughness_texmap []
  let an := insert_texture_and_instance s.m_anisotropy_texmap []
  let vt := insert_texture_and_instance s.m_volume_color_texmap []
  -- Displacement: the bump texture is instantiated with its color space
  -- forced to linear_rgb.
  let bu := insert_texture_and_instance s.m_bump_texmap [("color_space", "linear_rgb")]
  let st_name := name ++ "_bsdf_surface_transmittance"
  let rt_name := name ++ "_bsdf_reflection_tint"
  let ft_name := name ++ "_bsdf_refraction_tint"
  let vt_name := name ++ "_bsdf_volume_transmittance"
  let bsdf_name := name ++ "_bsdf"
  { bsdf_params :=
      [("mdf", ParamValue.s "ggx"),
       ("surface_transmittance",
         match st.1 with
         | some i => ParamValue.s i
         | none => ParamValue.s st_name),
       ("reflection_tint",
         match rt.1 with
         | some i => ParamValue.s i
         | none => ParamValue.s rt_name),
       ("refraction_tint",
         match ft.1 with
         | some i => ParamValue.s i
         | none => ParamValue.s ft_name),
       ("ior", ParamValue.f s.m_ior),
       ("roughness",
         match ro.1 with
         | some i => ParamValue.s i
         | none => ParamValue.f (s.m_roughness / 100)),
       ("anisotropic",
         match an.1 with
         | some i => ParamValue.s i
         | none => ParamValue.f s.m_anisotropy),
       ("volume_parameterization", ParamValue.s "transmittance"),
       ("volume_transmittance",
         match vt.1 with
         | some i => ParamValue.s i
         | none => ParamValue.s vt_name),
       ("volume_transmittance_distance", ParamValue.f s.m_scale)]
    material_params :=
      [("bsdf", ParamValue.s bsdf_name)] ++
      (match bu.1 with
       | none => []
       | some i =>
           [("displacement_method",
             ParamValue.s (if s.m_bump_method = 0 then "bump" else "normal")),
            ("displacement_map", ParamValue.s i)] ++
           (if s.m_bump_method = 0 then
              [("bump_amplitude", ParamValue.f s.m_bump_amount),
               ("bump_offset", ParamValue.f (1 / 2))]
            else if s.m_bump_method = 1 then
              [("normal_map_up",
                ParamValue.s (if s.m_bump_up_vector = 0 then "y" else "z"))]
            else []))
    colors :=
      (match st.1 with
       | some _ => []
       | none => [(st_name, s.m_surface_color)]) ++
      (match rt.1 with
       | some _ => []
       | none => [(rt_name, s.m_reflection_tint)]) ++
      (match ft.1 with
       | some _ => []
       | none => [(ft_name, s.m_refraction_tint)]) ++
      (match vt.1 with
       | some _ => []
       | none => [(vt_name, s.m_volume_color)])
    textures := st.2 ++ rt.2 ++ ft.2 ++ ro.2 ++ an.2 ++ vt.2 ++ bu.2 }

/-! ## Translation entry point -/

/-- The material handle produced by `create_material`: exactly one of
the two backend representations. -/
inductive MaterialOut where
  | osl (o : OSLMaterialOut)
  | builtin (o : BuiltinMaterialOut)

/-- `AppleseedGlassMtl::create_material`: dispatches on the caller's
`use_max_procedural_maps` flag to exactly one compiler. -/
def create_material (s : MtlState) (name : String)
    (use_max_procedural_maps : Bool) : MaterialOut :=
  if use_max_procedural_maps then
    MaterialOut.builtin (create_builtin_material s name)
  else
    MaterialOut.osl (create_osl_material s)

/-! ## The six resolved input slots, for slot-generic statements -/

/-- The six color/scalar input slots resolved by both compilers. -/
inductive GlassSlot where
  | surfaceColor
  | reflectionTint
  | refractionTint
  | volumeColor
  | roughness
  | anisotropy
deriving DecidableEq, Repr

/-- The texture binding of a slot in the snapshot. -/
def slotTexmap (s : MtlState) : GlassSlot → Option Nat
  | .surfaceColor => s.m_surface_color_texmap
  | .reflectionTint => s.m_reflection_tint_texmap
  | .refractionTint => s.m_refraction_tint_texmap
  | .volumeColor => s.m_volume_color_texmap
  | .roughness => s.m_roughness_texmap
  | .anisotropy => s.m_anisotropy_texmap

/-- The glass node input pin a slot is wired to in the OSL path. -/
def oslPin : GlassSlot → String
  | .surfaceColor => "SurfaceTransmittance"
  | .reflectionTint => "ReflectionTint"
  | .refractionTint => "RefractionTint"
  | .volumeColor => "VolumeTransmittance"
  | .roughness => "Roughness"
  | .anisotropy => "Anisotropic"

/-- The glass BSDF parameter a slot feeds in the fixed-function path. -/
def bsdfKey : GlassSlot → String
  | .surfaceColor => "surface_transmittance"
  | .reflectionTint => "reflection_tint"
  | .refractionTint => "refraction_tint"
  | .volumeColor => "volume_transmittance"
  | .roughness => "roughness"
  | .anisotropy => "anisotropic"

/-- The constant fallback the OSL adapter receives for a slot, exactly
as the `connect_*_texture` call sites pass it (colors raw, roughness and
anisotropy divided by 100). -/
def oslConstOf (s : MtlState) : GlassSlot → OSLInputSource
  | .surfaceColor => OSLInputSource.constColor s.m_surface_color
  | .reflectionTint => OSLInputSource.constColor s.m_reflection_tint
  | .refractionTint => OSLInputSource.constColor s.m_refraction_tint
  | .volumeColor => OSLInputSource.constColor s.m_volume_color
  | .roughness => OSLInputSource.constFloat (s.m_roughness / 100)
  | .anisotropy => OSLInputSource.constFloat (s.m_anisotropy / 100)

/-- The constant-path parameter value in the builtin compiler: color
slots reference a named inserted color, scalar slots are literal floats
(roughness divided by 100, anisotropy raw — as in the source). -/
def builtinConstOf (s : MtlState) (name : String) : GlassSlot → ParamValue
  | .surfaceColor => ParamValue.s (name ++ "_bsdf_surface_transmittance")
  | .reflectionTint => ParamValue.s (name ++ "_bsdf_reflection_tint")
  | .refractionTint => ParamValue.s (name ++ "_bsdf_refraction_tint")
  | .volumeColor => ParamValue.s (name ++ "_bsdf_volume_transmittance")
  | .roughness => ParamValue.f (s.m_roughness / 100)
  | .anisotropy => ParamValue.f s.m_anisotropy

/-! ## Persistence: Save / Load -/

/-- 3ds Max `IOResult` (the values this module distinguishes). -/
inductive IOResult where
  | ok
  | ioEnd
  | error
deriving DecidableEq, Repr

/-- Modelled from the spec: chunk id of the version chunk
(`ChunkFileFormatVersion`, datachunks.h — outside the sources under
study).  Only its distinctness from `ChunkMtlBase` matters. -/
def ChunkFileFormatVersion : Nat := 1

/-- Modelled from the spec: chunk id of the base-class state chunk
(`ChunkMtlBase`, datachunks.h — outside the sources under study). -/
def ChunkMtlBase : Nat := 4096

/-- Modelled from the spec: the persisted version tag
(`FileFormatVersion`, version.h — outside the sources under study). -/
def FileFormatVersion : Nat := 1

/-- One chunk of the persisted stream: id plus payload words. -/
structure Chunk where
  id : Nat
  payload : List Nat
deriving DecidableEq, Repr

/-- The external outcomes one `Save` call depends on: whether the
primitive `write(isave, FileFormatVersion)` succeeds, whether
`MtlBase::Save` returns `IO_OK`, and the base-state payload it emits. -/
structure SaveEnv where
  write_ok : Bool
  base_save_ok : Bool
  base_payload : List Nat

/--
`AppleseedGlassMtl::Save`: writes the version chunk, then the base-state
chunk, accumulating `success &=` over both writes, and returns `IO_OK`
exactly when `success` survived; the emitted stream is returned
alongside (a failed primitive write leaves the version chunk without its
payload).
-/
def Save (env : SaveEnv) : IOResult × List Chunk :=
  let success := true
  let success := success && env.write_ok
  let success := success && env.base_save_ok
  (if success then IOResult.ok else IOResult.error,
   [⟨ChunkFileFormatVersion, if env.write_ok then [FileFormatVersion] else []⟩,
    ⟨ChunkMtlBase, env.base_payload⟩])

/-- Modelled from the spec: `read<USHORT>` (utilities, outside the
sources under study) — reads the persisted version value from the
current chunk's payload, failing when it is absent. -/
def read_version (payload : List Nat) : Option Nat :=
  payload.head?

/--
`AppleseedGlassMtl::Load`: iterates `OpenChunk`; at end of stream
returns `IO_OK`.  The version chunk has its tag read (a failed read
aborts with its error); the base chunk runs `MtlBase::Load` (a non-ok
result aborts with that result); a chunk with any other id is skipped
and the loop continues.  `baseLoad` is the external `MtlBase::Load`.
Returns the final `IOResult` together with the version tag read, if any.
-/
def Load (baseLoad : List Nat → IOResult) :
    List Chunk → Option Nat → IOResult × Option Nat
  | [], ver => (IOResult.ok, ver)
  | c :: rest, ver =>
      if c.id = ChunkFileFormatVersion then
        match read_version c.payload with
        | some v => Load baseLoad rest (some v)
        | none => (IOResult.error, ver)
      else if c.id = ChunkMtlBase then
        match baseLoad c.payload with
        | IOResult.ok => Load baseLoad rest ver
        | r => (r, ver)
      else
        Load baseLoad rest ver

/-! ## Legacy compatibility queries -/

/--
Modelled from the 3ds Max SDK (hsv.h): `RGBtoHSV`, the standard
RGB→hue/saturation/value conversion; the result is packed in a `Color`
whose `.r`/`.g`/`.b` fields hold hue, saturation and value, so `.b` is
the brightness (value) channel, the maximum RGB component.
-/
def RGBtoHSV (c : Color3) : Color3 :=
  let mx := max c.r (max c.g c.b)
  let mn := min c.r (min c.g c.b)
  let d := mx - mn
  let sat := if mx = 0 then 0 else d / mx
  let h :=
    if d = 0 then 0
    else if mx = c.r then ((c.g - c.b) / d) / 6
    else if mx = c.g then (2 + (c.b - c.r) / d) / 6
    else (4 + (c.r - c.g) / d) / 6
  ⟨h, sat, mx⟩

/-- `AppleseedGlassMtl::GetXParency`: the product of the value channels
of the cached surface color and refraction tint. -/
def GetXParency (s : MtlState) : ℚ :=
  (RGBtoHSV s.m_surface_color).b * (RGBtoHSV s.m_refraction_tint).b

/-- `AppleseedGlassMtl::GetDiffuse`: returns the cached snapshot field
`m_surface_color` directly. -/
def GetDiffuse (s : MtlState) : Color3 :=
  s.m_surface_color

/--
`AppleseedGlassMtl::SetDiffuse`: writes the color into the parameter
block at time `t` (`m_pblock->SetValue`, whose change notification
reaches `NotifyRefChanged` and empties the cached validity) and then
writes the cached snapshot field `m_surface_color` directly.  The
parameter block update is modelled pointwise at the set time (controller
key interpolation is external SDK behavior).
-/
def SetDiffuse (s : MtlState) (c : Color3) (t : Int) : MtlState :=
  { s with
      pblock :=
        { s.pblock with
            surface_color := fun t2 =>
              if t2 = t then ⟨c, (s.pblock.surface_color t2).valid⟩
              else s.pblock.surface_color t2 }
      m_params_validity := NEVER
      m_surface_color := c }

/-! ## Helper lemmas -/

/-- Intersection membership distributes over both operands. -/
theorem MaxInterval.inter_inInterval (a b : MaxInterval) (t : Int) :
    (a.inter b).InInterval t = (a.InInterval t && b.InInterval t) := by
  simp only [MaxInterval.inter, MaxInterval.InInterval, ← Bool.decide_and]
  apply decide_eq_decide.mpr
  constructor
  · intro h
    obtain ⟨h1, h2⟩ := h
    rw [max_le_iff] at h1
    rw [le_min_iff] at h2
    exact ⟨⟨h1.1, h2.1⟩, h1.2, h2.2⟩
  · intro h
    obtain ⟨⟨a1, a2⟩, b1, b2⟩ := h
    exact ⟨max_le a1 b1, le_min a2 b2⟩

/-- A cache hit: `Update` touches nothing and signals nothing. -/
theorem Update_cache_hit (s : MtlState) (t : Int)
    (h : s.m_params_validity.InInterval t = true) :
    Update s t = (s, false) := by
  simp [Update, h]

/-- `Update` never changes the parameter block reference. -/
theorem Update_pblock (s : MtlState) (t : Int) :
    ((Update s t).1).pblock = s.pblock := by
  unfold Update
  by_cases h : s.m_params_validity.InInterval t = true <;> simp [h]

/-- Under the parameter store's contract, the validity interval cached
by `Update` contains the queried time. -/
theorem Update_validity_contains (s : MtlState) (t : Int)
    (hf : pblockFreshAt s.pblock t) :
    ((Update s t).1).m_params_validity.InInterval t = true := by
  obtain ⟨h0, h1, h2, h3, h4, h5, h6, h7, h8, h9, h10, h11, h12, h13, h14,
    h15, h16, h17, h18⟩ := hf
  unfold Update
  by_cases hc : s.m_params_validity.InInterval t = true
  · simp [hc]
  · simp only [hc, Bool.false_eq_true, if_false]
    simp [MaxInterval.inter_inInterval, h0, h1, h2, h3, h4, h5, h6, h7, h8,
      h9, h10, h11, h12, h13, h14, h15, h16, h17, h18]

/-! ## Claim theorems -/

/--
Claim C6: refreshing the snapshot (`Update`) is idempotent per time
value: once `Update(t)` has completed and no external parameter change
has intervened (the parameter store still validates `t`), a second
`Update` at the same `t` leaves every cached field and the validity
interval unchanged and does not call `NotifyDependents`.
-/
theorem update_idempotent_per_time (s : MtlState) (t : Int)
    (hf : pblockFreshAt s.pblock t) :
    Update (Update s t).1 t = ((Update s t).1, false) :=
  Update_cache_hit _ t (Update_validity_contains s t hf)

/-- Witness for the idempotence of `Update` at the default material and
time 0. -/
theorem update_idempotent_per_time_witness :
    pblockFreshAt defaultState.pblock 0 ∧
    Update (Update defaultState 0).1 0 = ((Update defaultState 0).1, false) := by
  have hf : pblockFreshAt defaultState.pblock 0 := by
    unfold pblockFreshAt
    decide
  exact ⟨hf, update_idempotent_per_time defaultState 0 hf⟩

/--
Claim C10: `SetDiffuse` followed immediately by `GetDiffuse` returns the
color that was set, with no intervening `Update`, because `SetDiffuse`
writes the cached snapshot field `m_surface_color` that `GetDiffuse`
reads (in addition to the parameter block).
-/
theorem set_diffuse_then_get_diffuse (s : MtlState) (c : Color3) (t : Int) :
    GetDiffuse (SetDiffuse s c t) = c :=
  rfl

/--
Claim C9: `GetXParency` returns the product of the value (brightness)
channels of the HSV conversions of `surface_color` and
`refraction_tint` — the value channel being the maximum RGB component —
and in particular returns 1/2 for surface color (1,1,1) and refraction
tint (1/2,1/2,1/2).
-/
theorem xparency_product_of_value_channels :
    (∀ c : Color3, (RGBtoHSV c).b = max c.r (max c.g c.b)) ∧
    (∀ s : MtlState,
       GetXParency s
         = (RGBtoHSV s.m_surface_color).b * (RGBtoHSV s.m_refraction_tint).b) ∧
    GetXParency { defaultState with m_refraction_tint := ⟨1 / 2, 1 / 2, 1 / 2⟩ }
      = 1 / 2 := by
  refine ⟨fun c => rfl, fun s => rfl, ?_⟩
  norm_num [GetXParency, RGBtoHSV, defaultState, max_self]

/--
Claim C2: with no roughness texture bound, both compilers present an
effective roughness of the stored UI value divided by 100 to the
underlying model: the OSL adapter's constant operand, the glass node's
baked literal, and the builtin BSDF's `roughness` parameter all equal
`m_roughness / 100`.
-/
theorem roughness_scaled_in_both_backends (s : MtlState) (name : String)
    (h : s.m_roughness_texmap = none) :
    (create_osl_material s).adapters.lookup "Roughness"
      = some (OSLInputSource.constFloat (s.m_roughness / 100)) ∧
    (create_osl_material s).glassParams.lookup "Roughness"
      = some (OSLParam.flt (s.m_roughness / 100)) ∧
    (create_builtin_material s name).bsdf_params.lookup "roughness"
      = some (ParamValue.f (s.m_roughness / 100)) := by
  refine ⟨?_, ?_, ?_⟩ <;>
    simp [create_osl_material, create_builtin_material, connect_color_texture,
      connect_float_texture, insert_texture_and_instance, h, List.lookup]

/-- Witness for the roughness scaling: UI roughness 20 yields an
effective roughness of 1/5 = 0.20 in the builtin backend. -/
theorem roughness_scaled_in_both_backends_witness :
    ((create_builtin_material { defaultState with m_roughness := 20 } "mtl").bsdf_params.lookup
        "roughness"
      = some (ParamValue.f ((20 : ℚ) / 100))) ∧
    ((20 : ℚ) / 100 = 1 / 5) :=
  ⟨(roughness_scaled_in_both_backends { defaultState with m_roughness := 20 } "mtl" rfl).2.2,
   by norm_num⟩

/--
Claim C1 counterexample: with UI anisotropy 1 and no anisotropy texture,
the fixed-function compiler hands the BSDF the raw value 1, not the
value divided by 100 — so the claimed division by 100 does not happen in
the fixed-function path.
-/
theorem anisotropy_not_scaled_in_builtin_cex :
    (create_builtin_material { defaultState with m_anisotropy := 1 } "mtl").bsdf_params.lookup
        "anisotropic"
      = some (ParamValue.f 1) ∧
    some (ParamValue.f (1 : ℚ)) ≠ some (ParamValue.f ((1 : ℚ) / 100)) := by
  constructor
  · rfl
  · simp only [ne_eq, Option.some.injEq, ParamValue.f.injEq]
    norm_num

/--
Claim C1 (amended): with no anisotropy texture bound, the anisotropy
handed to the backend is the stored UI value divided by 100 in the
procedural-graph compiler (both as the adapter's constant operand and as
the glass node's baked literal), but the raw, unscaled UI value in the
fixed-function compiler.
-/
theorem anisotropy_scaling_per_backend (s : MtlState) (name : String)
    (h : s.m_anisotropy_texmap = none) :
    (create_osl_material s).adapters.lookup "Anisotropic"
      = some (OSLInputSource.constFloat (s.m_anisotropy / 100)) ∧
    (create_osl_material s).glassParams.lookup "Anisotropic"
      = some (OSLParam.flt (s.m_anisotropy / 100)) ∧
    (create_builtin_material s name).bsdf_params.lookup "anisotropic"
      = some (ParamValue.f s.m_anisotropy) := by
  refine ⟨?_, ?_, ?_⟩ <;>
    simp [create_osl_material, create_builtin_material, connect_color_texture,
      connect_float_texture, insert_texture_and_instance, h, List.lookup]

/-- Witness for the per-backend anisotropy scaling at UI anisotropy 1. -/
theorem anisotropy_scaling_per_backend_witness :
    (create_osl_material { defaultState with m_anisotropy := 1 }).glassParams.lookup
        "Anisotropic"
      = some (OSLParam.flt ((1 : ℚ) / 100)) ∧
    (create_builtin_material { defaultState with m_anisotropy := 1 } "mtl").bsdf_params.lookup
        "anisotropic"
      = some (ParamValue.f (1 : ℚ)) :=
  ⟨(anisotropy_scaling_per_backend { defaultState with m_anisotropy := 1 } "mtl" rfl).2.1,
   (anisotropy_scaling_per_backend { defaultState with m_anisotropy := 1 } "mtl" rfl).2.2⟩

/--
Claim C3: for every input slot with a bound texture, the reference wired
into the backend by either compiler refers to that texture (the OSL
adapter receives the texture's output, the builtin BSDF parameter the
texture's instance name), never the slot's constant value, whatever that
constant is; with no texture bound, the constant path is taken and the
parameter is always present — never an error.
-/
theorem texture_bound_beats_constant (s : MtlState) (name : String)
    (slot : GlassSlot) :
    (∀ tex, slotTexmap s slot = some tex →
       (create_osl_material s).adapters.lookup (oslPin slot)
         = some (OSLInputSource.texture tex) ∧
       (create_builtin_material s name).bsdf_params.lookup (bsdfKey slot)
         = some (ParamValue.s (texInstanceName tex))) ∧
    (slotTexmap s slot = none →
       (create_osl_material s).adapters.lookup (oslPin slot)
         = some (oslConstOf s slot) ∧
       (create_builtin_material s name).bsdf_params.lookup (bsdfKey slot)
         = some (builtinConstOf s name slot)) := by
  cases slot <;>
    refine ⟨fun tex htex => ⟨?_, ?_⟩, fun hn => ⟨?_, ?_⟩⟩ <;>
    simp_all [create_osl_material, create_builtin_material, connect_color_texture,
      connect_float_texture, insert_texture_and_instance, slotTexmap, oslPin,
      bsdfKey, oslConstOf, builtinConstOf, List.lookup]

/-- Witness for texture precedence: roughness with texture 5 bound is
wired as that texture; default roughness without a texture takes the
constant path. -/
theorem texture_bound_beats_constant_witness :
    ((create_builtin_material { defaultState with m_roughness_texmap := some 5 } "mtl").bsdf_params.lookup
        "roughness"
      = some (ParamValue.s (texInstanceName 5))) ∧
    ((create_builtin_material defaultState "mtl").bsdf_params.lookup "roughness"
      = some (ParamValue.f ((0 : ℚ) / 100))) :=
  ⟨((texture_bound_beats_constant { defaultState with m_roughness_texmap := some 5 } "mtl"
      GlassSlot.roughness).1 5 rfl).2,
   ((texture_bound_beats_constant defaultState "mtl" GlassSlot.roughness).2 rfl).2⟩

/--
Claim C4: with `bump_texmap` unset, neither compiler emits displacement
wiring: the procedural graph contains no bump or normal adapter node,
and the fixed-function material parameter set contains none of
`displacement_method`, `displacement_map`, `bump_amplitude`,
`bump_offset`, `normal_map_up`.
-/
theorem no_bump_texture_no_displacement (s : MtlState) (name : String)
    (h : s.m_bump_texmap = none) :
    (create_osl_material s).bumpNodes = [] ∧
    (create_builtin_material s name).material_params.lookup "displacement_method" = none ∧
    (create_builtin_material s name).material_params.lookup "displacement_map" = none ∧
    (create_builtin_material s name).material_params.lookup "bump_amplitude" = none ∧
    (create_builtin_material s name).material_params.lookup "bump_offset" = none ∧
    (create_builtin_material s name).material_params.lookup "normal_map_up" = none := by
  refine ⟨?_, ?_, ?_, ?_, ?_, ?_⟩ <;>
    simp [create_osl_material, create_builtin_material, insert_texture_and_instance,
      h, List.lookup]

/-- Witness: the default material binds no bump texture and gets no
displacement wiring in either backend. -/
theorem no_bump_texture_no_displacement_witness :
    (create_osl_material defaultState).bumpNodes = [] ∧
    (create_builtin_material defaultState "mtl").material_params.lookup
        "displacement_method"
      = none :=
  ⟨(no_bump_texture_no_displacement defaultState "mtl" rfl).1,
   (no_bump_texture_no_displacement defaultState "mtl" rfl).2.1⟩

/--
Claim C5: in the fixed-function compiler a bound bump texture is
instantiated with linear (not display-gamma) color interpretation and
drives the material's displacement fields: `displacement_method` is
"bump" or "normal" per `bump_method`; bump mode additionally sets
`bump_amplitude = bump_amount` and `bump_offset = 1/2` (and no
`normal_map_up`); normal mode instead sets only `normal_map_up` to "y"
or "z" per `bump_up_vector` (and no amplitude/offset).
-/
theorem bump_texture_displacement_wiring (s : MtlState) (name : String) (bt : Nat)
    (h : s.m_bump_texmap = some bt) :
    TexInstance.mk bt [("color_space", "linear_rgb")]
        ∈ (create_builtin_material s name).textures ∧
    (create_builtin_material s name).material_params.lookup "displacement_map"
      = some (ParamValue.s (texInstanceName bt)) ∧
    (s.m_bump_method = 0 →
       (create_builtin_material s name).material_params.lookup "displacement_method"
         = some (ParamValue.s "bump") ∧
       (create_builtin_material s name).material_params.lookup "bump_amplitude"
         = some (ParamValue.f s.m_bump_amount) ∧
       (create_builtin_material s name).material_params.lookup "bump_offset"
         = some (ParamValue.f (1 / 2)) ∧
       (create_builtin_material s name).material_params.lookup "normal_map_up" = none) ∧
    (s.m_bump_method = 1 →
       (create_builtin_material s name).material_params.lookup "displacement_method"
         = some (ParamValue.s "normal") ∧
       (create_builtin_material s name).material_params.lookup "normal_map_up"
         = some (ParamValue.s (if s.m_bump_up_vector = 0 then "y" else "z")) ∧
       (create_builtin_material s name).material_params.lookup "bump_amplitude" = none ∧
       (create_builtin_material s name).material_params.lookup "bump_offset" = none) := by
  refine ⟨?_, ?_, fun hm => ⟨?_, ?_, ?_, ?_⟩, fun hm => ⟨?_, ?_, ?_, ?_⟩⟩ <;>
    simp_all [create_builtin_material, insert_texture_and_instance, List.lookup]

/-- Witness for the displacement wiring: bump texture 7, bump mode,
amount 50 sets displacement_method "bump", bump_amplitude 50 and
bump_offset 1/2. -/
theorem bump_texture_displacement_wiring_witness :
    ((create_builtin_material
          { defaultState with m_bump_texmap := some 7, m_bump_amount := 50 } "mtl").material_params.lookup
        "displacement_method"
      = some (ParamValue.s "bump")) ∧
    ((create_builtin_material
          { defaultState with m_bump_texmap := some 7, m_bump_amount := 50 } "mtl").material_params.lookup
        "bump_amplitude"
      = some (ParamValue.f 50)) ∧
    ((create_builtin_material
          { defaultState with m_bump_texmap := some 7, m_bump_amount := 50 } "mtl").material_params.lookup
        "bump_offset"
      = some (ParamValue.f (1 / 2))) := by
  have h := bump_texture_displacement_wiring
    { defaultState with m_bump_texmap := some 7, m_bump_amount := 50 } "mtl" 7 rfl
  have h0 := h.2.2.1 rfl
  exact ⟨h0.1, h0.2.1, h0.2.2.1⟩

/--
Claim C7: the version tag round-trips through persistence — on any
stream written by `Save` whose version write succeeded, `Load` reads
back exactly the tag `Save` wrote (`FileFormatVersion`), whatever the
base loader does — and a chunk whose id `Load` does not recognize is
skipped, the load of the remaining chunks continuing unchanged.
-/
theorem version_roundtrip_and_unknown_chunk_skip :
    (∀ (env : SaveEnv) (baseLoad : List Nat → IOResult),
       env.write_ok = true →
       (Load baseLoad (Save env).2 none).2 = some FileFormatVersion) ∧
    (∀ (baseLoad : List Nat → IOResult) (c : Chunk) (rest : List Chunk)
       (ver : Option Nat),
       c.id ≠ ChunkFileFormatVersion → c.id ≠ ChunkMtlBase →
       Load baseLoad (c :: rest) ver = Load baseLoad rest ver) := by
  constructor
  · intro env baseLoad hw
    simp only [Save, hw, Bool.true_and]
    cases hb : baseLoad env.base_payload <;>
      simp [Load, read_version, ChunkFileFormatVersion, ChunkMtlBase, hb]
  · intro baseLoad c rest ver h1 h2
    simp [Load, h1, h2]

/-- Witness: a concrete save/load round-trip reads back the version
tag, and a chunk with the unknown id 55 is skipped. -/
theorem version_roundtrip_and_unknown_chunk_skip_witness :
    (Load (fun _ => IOResult.ok) (Save ⟨true, true, [7]⟩).2 none).2
      = some FileFormatVersion ∧
    Load (fun _ => IOResult.ok) (⟨55, [3]⟩ :: [⟨ChunkMtlBase, []⟩]) none
      = Load (fun _ => IOResult.ok) [⟨ChunkMtlBase, []⟩] none :=
  ⟨version_roundtrip_and_unknown_chunk_skip.1 ⟨true, true, [7]⟩ (fun _ => IOResult.ok) rfl,
   version_roundtrip_and_unknown_chunk_skip.2 (fun _ => IOResult.ok) ⟨55, [3]⟩
     [⟨ChunkMtlBase, []⟩] none (by decide) (by decide)⟩

/--
Claim C8: persistence failure surfaces as a binary success/failure
result with no partial application — `Save` returns `IO_OK` exactly when
both the version write and the base-class save succeed, and `Load` on a
stream written by `Save` returns `IO_OK` exactly when both the version
chunk read (which requires the version write to have succeeded) and the
base-class load succeed; any failure is reported to the caller.
-/
theorem save_load_success_iff (env : SaveEnv) (baseLoad : List Nat → IOResult) :
    ((Save env).1 = IOResult.ok ↔ env.write_ok = true ∧ env.base_save_ok = true) ∧
    ((Load baseLoad (Save env).2 none).1 = IOResult.ok ↔
       env.write_ok = true ∧ baseLoad env.base_payload = IOResult.ok) := by
  obtain ⟨w, b, p⟩ := env
  constructor
  · cases w <;> cases b <;> simp [Save]
  · cases w <;>
      cases hb : baseLoad p <;>
        simp [Save, Load, read_version, ChunkFileFormatVersion, ChunkMtlBase, hb]
